import Mathlib

/-!
# rcl_logging_spdlog: level mapping, sink factory and root-logger lifecycle

A shallow embedding of `rcl_logging_spdlog/src/rcl_logging_spdlog.cpp`.

* C `int` severities are `Int`; only comparisons against constants are made on
  them, so no overflow can occur.
* C strings are `String`; a nullable `const char *` is an `Option String`.
* The process globals (`g_root_logger`, the spdlog registry and thread pool, the
  rcutils error string) and the effects on the file system are fields of `State`.
* Whatever the code asks of its surroundings (environment, clock, file system,
  executable name) is an oracle field of `World`.
* A C++ exception leaving a function is the `threw` outcome. The exceptions
  modelled are the two the logging library raises on this path: the file sink
  that cannot open its file, and the registry that is given a name it already
  holds. Memory exhaustion is not modelled.
* Logger objects are never removed from `State.loggers`; the end of an object's
  life, the release of the executable-name string through the allocator, and
  console output (`std::cout`, `std::cerr`) are not recorded.
-/

namespace RclLoggingSpdlog

/-! ## Severity scales -/

/-- Modelled from the spec: the value of `RCUTILS_LOG_SEVERITY_DEBUG`, declared in
`rcutils/logging.h` (debug threshold of the external integer scale). -/
def RCUTILS_LOG_SEVERITY_DEBUG : Int := 10

/-- Modelled from the spec: the value of `RCUTILS_LOG_SEVERITY_INFO`, declared in
`rcutils/logging.h`. -/
def RCUTILS_LOG_SEVERITY_INFO : Int := 20

/-- Modelled from the spec: the value of `RCUTILS_LOG_SEVERITY_WARN`, declared in
`rcutils/logging.h`. -/
def RCUTILS_LOG_SEVERITY_WARN : Int := 30

/-- Modelled from the spec: the value of `RCUTILS_LOG_SEVERITY_ERROR`, declared in
`rcutils/logging.h`. -/
def RCUTILS_LOG_SEVERITY_ERROR : Int := 40

/-- Modelled from the spec: the value of `RCUTILS_LOG_SEVERITY_FATAL`, declared in
`rcutils/logging.h` (the fatal threshold, 50). -/
def RCUTILS_LOG_SEVERITY_FATAL : Int := 50

/-- Modelled from the spec: the type `spdlog::level::level_enum` of the logging
library, the internal ordered scale trace < debug < info < warn < error <
critical < off. -/
inductive level_enum where
  | trace
  | debug
  | info
  | warn
  | err
  | critical
  | off
  deriving DecidableEq, Repr

/-- Position of a level in the internal ordering (trace = 0, ..., off = 6). -/
def level_enum.rank : level_enum → Nat
  | .trace => 0
  | .debug => 1
  | .info => 2
  | .warn => 3
  | .err => 4
  | .critical => 5
  | .off => 6

instance : LE level_enum := ⟨fun a b => a.rank ≤ b.rank⟩

instance : LT level_enum := ⟨fun a b => a.rank < b.rank⟩

instance (a b : level_enum) : Decidable (a ≤ b) :=
  inferInstanceAs (Decidable (a.rank ≤ b.rank))

instance (a b : level_enum) : Decidable (a < b) :=
  inferInstanceAs (Decidable (a.rank < b.rank))

/-- Embedding of `map_external_log_level_to_library_level` (source lines 92-109):
`level` starts as `off` and is overwritten by the first branch of the
`if / else if` chain whose comparison holds; there is no final `else`. -/
def map_external_log_level_to_library_level (external_level : Int) : level_enum :=
  if external_level ≤ RCUTILS_LOG_SEVERITY_DEBUG then level_enum.debug
  else if external_level ≤ RCUTILS_LOG_SEVERITY_INFO then level_enum.info
  else if external_level ≤ RCUTILS_LOG_SEVERITY_WARN then level_enum.warn
  else if external_level ≤ RCUTILS_LOG_SEVERITY_ERROR then level_enum.err
  else if external_level ≤ RCUTILS_LOG_SEVERITY_FATAL then level_enum.critical
  else level_enum.off

/-- The external threshold that a record level stands for in the mapper: the
constant compared against in the branch that yields the level. `trace` and `off`
are yielded by no branch and have no threshold. -/
def threshold : level_enum → Option Int
  | .debug => some RCUTILS_LOG_SEVERITY_DEBUG
  | .info => some RCUTILS_LOG_SEVERITY_INFO
  | .warn => some RCUTILS_LOG_SEVERITY_WARN
  | .err => some RCUTILS_LOG_SEVERITY_ERROR
  | .critical => some RCUTILS_LOG_SEVERITY_FATAL
  | .trace => none
  | .off => none

/-! ## Sinks and loggers of the logging library -/

/-- The two kinds of sink the factory builds, with their constructor arguments:
`basic_file_sink_mt(filename, truncate)` and
`syslog_sink_mt(ident, syslog_option, syslog_facility, enable_formatting)`. -/
inductive SinkKind where
  | basic_file_sink (filename : String) (truncate : Bool)
  | syslog_sink (ident : String) (syslog_option : Nat) (syslog_facility : Nat)
      (enable_formatting : Bool)
  deriving DecidableEq, Repr

/-- A sink object: what it writes to, its format pattern and its minimum level. -/
structure Sink where
  kind : SinkKind
  pattern : String
  level : level_enum
  deriving DecidableEq, Repr

/-- A freshly constructed sink of the library: default pattern, level `trace`. -/
def Sink.fresh (kind : SinkKind) : Sink :=
  { kind := kind, pattern := "%+", level := level_enum.trace }

/-- Embedding of `sink::should_log`: a sink accepts a record iff the record level
is at or above the sink's minimum level. -/
def Sink.should_log (sink : Sink) (msg_level : level_enum) : Bool :=
  decide (sink.level ≤ msg_level)

/-- The `LOG_PID` option of `syslog.h`. -/
def LOG_PID : Nat := 1

/-- The `LOG_USER` facility of `syslog.h`. -/
def LOG_USER : Nat := 8

/-- Overflow policy of an asynchronous logger. -/
inductive async_overflow_policy where
  | block
  | overrun_oldest
  deriving DecidableEq, Repr

/-- The shared worker pool of the library: queue size and number of threads. -/
structure ThreadPool where
  q_max_items : Nat
  threads_n : Nat
  deriving DecidableEq, Repr

/-- An `spdlog::async_logger` object. -/
structure Logger where
  name : String
  sinks : List Sink
  level : level_enum
  overflow_policy : async_overflow_policy
  deriving DecidableEq, Repr

/-- Embedding of `logger::set_pattern`: the pattern of every sink is replaced. -/
def Logger.set_pattern (l : Logger) (pattern : String) : Logger :=
  { l with sinks := l.sinks.map (fun sink => { sink with pattern := pattern }) }

/-! ## Process state and surroundings -/

/-- Modelled from the spec: the type `rcl_logging_ret_t` declared in
`rcl_logging_interface/rcl_logging_interface.h` (success / error signal). -/
inductive rcl_logging_ret_t where
  | RCL_LOGGING_RET_OK
  | RCL_LOGGING_RET_ERROR
  deriving DecidableEq, Repr

/-- An `rcutils_allocator_t` value, an opaque handle for this code: it is passed
to `rcutils_get_executable_name` and used to release the returned string. -/
structure rcutils_allocator_t where
  state : Nat
  deriving DecidableEq, Repr

/-- Result of `stat(path, &info)`: the mode on success, `errno` on failure. -/
inductive StatResult where
  | ok (st_mode : Nat)
  | error (errno : Nat)
  deriving DecidableEq, Repr

/-- What the code asks of its surroundings during one call. -/
structure World where
  /-- Result of `getenv("LOG_DIR")`. -/
  LOG_DIR : Option String
  /-- Result of `stat` on a path. -/
  stat : String → StatResult
  /-- Local time printed with `"%d-%m-%Y-%X"`. -/
  timeString : String
  /-- Whether `basic_file_sink_mt` manages to open the file; otherwise its
  constructor throws. -/
  file_opens : String → Bool
  /-- Result of `rcutils_get_executable_name(allocator)`, `none` for `nullptr`. -/
  rcutils_get_executable_name : rcutils_allocator_t → Option String
  /-- Return value of `rcutils_snprintf(buffer, size, "%s", arg)`. -/
  rcutils_snprintf : Nat → String → Int

/-- The process-wide state. Loggers are shared objects: they live in `loggers`
and are referred to by position, which stands for the `shared_ptr`. -/
structure State where
  /-- The global `g_root_logger`; `none` is `nullptr`. -/
  g_root_logger : Option Nat
  /-- Every logger object constructed so far. -/
  loggers : List Logger
  /-- The named loggers of the library registry. -/
  registry : List (String × Nat)
  /-- The global thread pool of the library registry; `none` is `nullptr`. -/
  thread_pool : Option ThreadPool
  /-- Log files opened (created or truncated) so far. -/
  files : List String
  /-- Directories passed to `mkdir` so far. -/
  mkdirs : List String
  /-- The rcutils error message set by `RCUTILS_SET_ERROR_MSG`. -/
  error_msg : Option String
  deriving DecidableEq, Repr

/-- State of a process that has not called the backend yet. -/
def State.init : State :=
  { g_root_logger := none, loggers := [], registry := [], thread_pool := none,
    files := [], mkdirs := [], error_msg := none }

/-- How a call ends: it returns a value or a C++ exception leaves it. -/
inductive Outcome (α : Type) where
  | returned (value : α)
  | threw (what : String)
  deriving DecidableEq, Repr

/-- Accesses to the two globals `g_logger_mutex` and `g_root_logger`. -/
inductive Event where
  | lock
  | unlock
  | read_root
  | write_root
  deriving DecidableEq, Repr

/-- What a lifecycle call does: its outcome, the state it leaves, and its
accesses to `g_logger_mutex` and `g_root_logger` in program order. -/
structure Result where
  outcome : Outcome rcl_logging_ret_t
  state : State
  events : List Event
  deriving DecidableEq, Repr

/-! ## Helpers of the source -/

/-- The `ENOENT` value of `errno.h`. -/
def ENOENT : Nat := 2

/-- The `ENOTDIR` value of `errno.h`. -/
def ENOTDIR : Nat := 20

/-- The `S_IFDIR` bit of `sys/stat.h`. -/
def S_IFDIR : Nat := 0o040000

/-- Embedding of `helper::dirExists` (source lines 56-69). -/
def dirExists (w : World) (path : String) : Int :=
  match w.stat path with
  | .error errno =>
    if errno = ENOENT then 0
    else if errno = ENOTDIR then 0
    else -1
  | .ok st_mode => if st_mode &&& S_IFDIR ≠ 0 then 1 else 0

/-- Embedding of `helper::getLogDirectory` (source lines 71-88): the directory
string and the state after the possible `mkdir`. -/
def getLogDirectory (w : World) (s : State) : String × State :=
  match w.LOG_DIR with
  | none => ("", s)
  | some logDirChar =>
    if dirExists w logDirChar = 0 then
      (logDirChar, { s with mkdirs := s.mkdirs ++ [logDirChar] })
    else
      (logDirChar, s)

/-- Embedding of `create_sinks` (source lines 111-137). A level argument that is
omitted at the call site is `none` and takes its declared default
`spdlog::level::trace`. The file sink is constructed first; when its file cannot
be opened the constructor throws and nothing is returned. -/
def create_sinks (w : World) (logfileName : String) (fileLevel : Option level_enum)
    (consoleLevel : Option level_enum) (s : State) : Outcome (List Sink) × State :=
  let fileLevel := fileLevel.getD level_enum.trace
  let consoleLevel := consoleLevel.getD level_enum.trace
  let (logDir, s1) := getLogDirectory w s
  let logFile := logDir ++ "/" ++ logfileName ++ "_" ++ w.timeString ++ ".log"
  if w.file_opens logFile then
    let s2 := { s1 with files := s1.files ++ [logFile] }
    let file_sink := Sink.fresh (SinkKind.basic_file_sink logFile true)
    let file_sink := { file_sink with pattern := "%v" }
    let file_sink := { file_sink with level := fileLevel }
    let syslog_sink := Sink.fresh (SinkKind.syslog_sink logfileName LOG_PID LOG_USER false)
    let syslog_sink := { syslog_sink with level := consoleLevel }
    (Outcome.returned [file_sink, syslog_sink], s2)
  else
    (Outcome.threw ("Failed opening file " ++ logFile ++ " for writing"), s1)

/-! ## The library registry -/

/-- Embedding of `spdlog::init_thread_pool(q_size, thread_count)`: the global
thread pool is replaced by a new one. -/
def init_thread_pool (q_size thread_count : Nat) (s : State) : State :=
  { s with thread_pool := some { q_max_items := q_size, threads_n := thread_count } }

/-- Embedding of `spdlog::register_logger` (library code, called at source line
191): the registry looks the logger's name up among its named loggers, throws an
`spdlog_ex` when the name is already there, and stores the logger under its name
otherwise. A reference to no object is not passed by this code. -/
def register_logger (new_logger : Nat) (s : State) : Outcome Unit × State :=
  match s.loggers[new_logger]? with
  | none => (Outcome.threw "null logger", s)
  | some l =>
    if (s.registry.lookup l.name).isSome then
      (Outcome.threw ("logger with name " ++ l.name ++ " already exists"), s)
    else
      (Outcome.returned (), { s with registry := s.registry ++ [(l.name, new_logger)] })

/-- Applies `f` to the logger object that `ptr` refers to. -/
def State.update_logger (s : State) (ptr : Nat) (f : Logger → Logger) : State :=
  match s.loggers[ptr]? with
  | none => s
  | some l => { s with loggers := s.loggers.set ptr (f l) }

/-- Whether the root logger reference is non-null (the Active lifecycle state);
otherwise the lifecycle state is Uninitialized. -/
def State.active (s : State) : Bool :=
  s.g_root_logger.isSome

/-- The loggers registered under the name `root`. -/
def State.root_registered (s : State) : Bool :=
  (s.registry.lookup "root").isSome

/-! ## Lifecycle operations -/

/-- Accesses of a lifecycle call that leaves before line 184: the lock is taken,
`g_root_logger` is read by the test of line 147, the lock is released. -/
def events_without_write : List Event :=
  [Event.lock, Event.read_root, Event.unlock]

/-- Accesses of a lifecycle call that reaches line 184: as before, then the
assignment of line 184 and the reads of lines 190 and 191, all before the
release of the lock at scope exit. -/
def events_with_write : List Event :=
  [Event.lock, Event.read_root, Event.write_root, Event.read_root, Event.read_root,
    Event.unlock]

/-- The error message of lines 154-155. -/
def unsupported_configuration_msg : String :=
  "spdlog logging backend doesn't currently support external configuration"

/-- Embedding of `rcl_logging_external_initialize` (source lines 139-195). The
`std::lock_guard` of line 143 takes `g_logger_mutex` on entry and releases it on
every way out of the function. -/
def rcl_logging_external_initialize (w : World) (config_file : Option String)
    (allocator : rcutils_allocator_t) (s : State) : Result :=
  if s.g_root_logger ≠ none then
    ⟨Outcome.returned rcl_logging_ret_t.RCL_LOGGING_RET_OK, s, events_without_write⟩
  else
    -- line 151: the pointer is non-null and its first character is not NUL
    let config_file_provided : Bool :=
      match config_file with
      | none => false
      | some c => decide (c ≠ "")
    if config_file_provided then
      ⟨Outcome.returned rcl_logging_ret_t.RCL_LOGGING_RET_ERROR,
        { s with error_msg := some unsupported_configuration_msg },
        events_without_write⟩
    else
      match w.rcutils_get_executable_name allocator with
      | none =>
        ⟨Outcome.returned rcl_logging_ret_t.RCL_LOGGING_RET_ERROR,
          { s with error_msg := some "Failed to get the executable name" },
          events_without_write⟩
      | some basec =>
        let print_ret := w.rcutils_snprintf 4096 basec
        if print_ret < 0 then
          ⟨Outcome.returned rcl_logging_ret_t.RCL_LOGGING_RET_ERROR,
            { s with error_msg := some "Failed to create log file name string" },
            events_without_write⟩
        else
          -- line 161 and 172: a buffer of 4096 bytes holds at most 4095 characters
          let name_buffer : String := ⟨basec.data.take 4095⟩
          -- lines 180-182
          let s1 := if s.thread_pool = none then init_thread_pool 8192 1 s else s
          -- line 183: both level arguments are omitted
          match create_sinks w name_buffer none none s1 with
          | (Outcome.threw what, s2) => ⟨Outcome.threw what, s2, events_without_write⟩
          | (Outcome.returned sinks, s2) =>
            -- lines 184-188; a new logger of the library has level info
            let logger : Logger :=
              { name := "root", sinks := sinks, level := level_enum.info,
                overflow_policy := async_overflow_policy.block }
            let ptr := s2.loggers.length
            let s3 := { s2 with loggers := s2.loggers ++ [logger], g_root_logger := some ptr }
            -- line 190
            let s4 := s3.update_logger ptr (fun l => l.set_pattern "%v")
            -- line 191
            match register_logger ptr s4 with
            | (Outcome.threw what, s5) => ⟨Outcome.threw what, s5, events_with_write⟩
            | (Outcome.returned _, s5) =>
              ⟨Outcome.returned rcl_logging_ret_t.RCL_LOGGING_RET_OK, s5, events_with_write⟩

/-- Embedding of `rcl_logging_external_shutdown` (source lines 197-201): the
reference is set to `nullptr`; nothing else is touched and no lock is taken. -/
def rcl_logging_external_shutdown (s : State) : Result :=
  ⟨Outcome.returned rcl_logging_ret_t.RCL_LOGGING_RET_OK, { s with g_root_logger := none },
    [Event.write_root]⟩

/-- The call `g_root_logger->log(level, msg)` made by the backend. -/
structure LogCall where
  logger : Nat
  level : level_enum
  msg : String
  deriving DecidableEq, Repr

/-- Embedding of `rcl_logging_external_log` (source lines 203-207): the call made
on the root logger, `none` when the reference is `nullptr` (the dereference is
then undefined). The `name` argument is ignored. -/
def rcl_logging_external_log (s : State) (severity : Int) (_name : String) (msg : String) :
    Option LogCall :=
  match s.g_root_logger with
  | none => none
  | some ptr =>
    some { logger := ptr, level := map_external_log_level_to_library_level severity,
           msg := msg }

/-! ## Lock discipline -/

/-- Whether every `write_root` of a sequence of accesses happens while the lock is
held; `held` tells whether it is held before the first access. -/
def writes_locked (held : Bool) : List Event → Bool
  | [] => true
  | Event.lock :: es => writes_locked true es
  | Event.unlock :: es => writes_locked false es
  | Event.read_root :: es => writes_locked held es
  | Event.write_root :: es => held && writes_locked held es

/-! ## Concrete surroundings used in the examples -/

/-- A world in which everything succeeds: `LOG_DIR` is unset, the executable is
`talker`, every file can be opened. -/
def World.fine : World :=
  { LOG_DIR := none
    stat := fun _ => StatResult.error ENOENT
    timeString := "31-10-2026-06:25:00"
    file_opens := fun _ => true
    rcutils_get_executable_name := fun _ => some "talker"
    rcutils_snprintf := fun _ arg => arg.length }

/-- A world that differs from `World.fine` in that no log file can be opened. -/
def World.read_only : World :=
  { World.fine with file_opens := fun _ => false }

/-- Some allocator. -/
def allocator0 : rcutils_allocator_t := { state := 0 }

/-- The state reached from `State.init` by a successful call of initialize in
`World.fine`. -/
def State.active0 : State :=
  ( rcl_logging_external_initialize World.fine none allocator0 State.init).state

/-- The state reached from `State.active0` by a call of shutdown. -/
def State.after_shutdown0 : State :=
  (rcl_logging_external_shutdown State.active0).state

/-- The levels that the claim lets the mapper choose from, least severe first. -/
def record_levels : List level_enum :=
  [level_enum.debug, level_enum.info, level_enum.warn, level_enum.err, level_enum.critical]

/-- Path of the log file that `create_sinks` opens. -/
def logFile_path (w : World) (logfileName : String) (s : State) : String :=
  (getLogDirectory w s).1 ++ "/" ++ logfileName ++ "_" ++ w.timeString ++ ".log"

/-! ## Level mapper -/

/-- Value of the mapper on each of the six intervals of the external scale. -/
theorem map_cases (s : Int) :
    (s ≤ 10 ∧ map_external_log_level_to_library_level s = level_enum.debug) ∨
    (10 < s ∧ s ≤ 20 ∧ map_external_log_level_to_library_level s = level_enum.info) ∨
    (20 < s ∧ s ≤ 30 ∧ map_external_log_level_to_library_level s = level_enum.warn) ∨
    (30 < s ∧ s ≤ 40 ∧ map_external_log_level_to_library_level s = level_enum.err) ∨
    (40 < s ∧ s ≤ 50 ∧ map_external_log_level_to_library_level s = level_enum.critical) ∨
    (50 < s ∧ map_external_log_level_to_library_level s = level_enum.off) := by
  unfold map_external_log_level_to_library_level RCUTILS_LOG_SEVERITY_DEBUG
    RCUTILS_LOG_SEVERITY_INFO RCUTILS_LOG_SEVERITY_WARN RCUTILS_LOG_SEVERITY_ERROR
    RCUTILS_LOG_SEVERITY_FATAL
  split_ifs <;> simp <;> omega

/-- Claim C6, as stated, fails: the severity 51 is above the fatal threshold 50
and the mapper returns `off` for it, not `critical`; a record logged with that
severity carries the level `off`. -/
theorem map_above_fatal_is_off :
    RCUTILS_LOG_SEVERITY_FATAL ≤ 51 ∧
    map_external_log_level_to_library_level 51 = level_enum.off ∧
    map_external_log_level_to_library_level 51 ≠ level_enum.critical ∧
    (rcl_logging_external_log State.active0 51 "node" "disk full").map LogCall.level
      = some level_enum.off := by
  refine ⟨by decide, by decide, by decide, by decide⟩

/-- Claim C6, amended: every severity above the error threshold and up to the
fatal threshold (so the fatal threshold itself) maps to `critical`; every
severity above the fatal threshold maps to `off`; the mapper returns `off`
exactly for the severities above the fatal threshold, and never `trace`. -/
theorem map_fatal_critical_above_off (s : Int) :
    (RCUTILS_LOG_SEVERITY_ERROR < s → s ≤ RCUTILS_LOG_SEVERITY_FATAL →
      map_external_log_level_to_library_level s = level_enum.critical) ∧
    (RCUTILS_LOG_SEVERITY_FATAL < s →
      map_external_log_level_to_library_level s = level_enum.off) ∧
    (map_external_log_level_to_library_level s = level_enum.off ↔
      RCUTILS_LOG_SEVERITY_FATAL < s) ∧
    map_external_log_level_to_library_level s ≠ level_enum.trace := by
  unfold RCUTILS_LOG_SEVERITY_ERROR RCUTILS_LOG_SEVERITY_FATAL
  rcases map_cases s with h | h | h | h | h | h <;>
    obtain ⟨h1, h2⟩ := h <;> simp_all <;> omega

/-- Witness of `map_fatal_critical_above_off` at the fatal threshold and at 51. -/
theorem map_fatal_critical_above_off_witness :
    map_external_log_level_to_library_level 50 = level_enum.critical ∧
    map_external_log_level_to_library_level 51 = level_enum.off :=
  ⟨(map_fatal_critical_above_off 50).1 (by decide) (by decide),
   (map_fatal_critical_above_off 51).2.1 (by decide)⟩

/-- Claim C7: the mapper is monotone from the integers with their usual order to
the internal ordering trace < debug < info < warn < error < critical < off. -/
theorem map_monotone (s1 s2 : Int) (h : s1 ≤ s2) :
    map_external_log_level_to_library_level s1 ≤
      map_external_log_level_to_library_level s2 := by
  show (map_external_log_level_to_library_level s1).rank ≤
    (map_external_log_level_to_library_level s2).rank
  rcases map_cases s1 with h1 | h1 | h1 | h1 | h1 | h1 <;>
    rcases map_cases s2 with h2 | h2 | h2 | h2 | h2 | h2 <;>
    simp only [h1, h2, level_enum.rank] <;> omega

/-- Witness of `map_monotone` at severities 15 and 51, which map to `info` and
`off`. -/
theorem map_monotone_witness :
    ((15 : Int) ≤ 51) ∧
    map_external_log_level_to_library_level 15 ≤
      map_external_log_level_to_library_level 51 :=
  ⟨by decide, map_monotone 15 51 (by decide)⟩

/-- Claim C8: for a severity `s` up to the fatal threshold the mapper returns one
of debug, info, warn, error, critical; the threshold of the returned level is at
least `s`; no level of that list with a threshold at least `s` is less severe.
A severity up to the debug threshold maps to debug (so never to trace), and a
severity strictly between two neighbouring thresholds maps to the level of the
upper one. -/
theorem map_round_up (s : Int) (h : s ≤ RCUTILS_LOG_SEVERITY_FATAL) :
    map_external_log_level_to_library_level s ∈ record_levels ∧
    (∃ t, threshold (map_external_log_level_to_library_level s) = some t ∧ s ≤ t) ∧
    (∀ l ∈ record_levels, ∀ t, threshold l = some t → s ≤ t →
      map_external_log_level_to_library_level s ≤ l) ∧
    (s ≤ RCUTILS_LOG_SEVERITY_DEBUG →
      map_external_log_level_to_library_level s = level_enum.debug) ∧
    map_external_log_level_to_library_level s ≠ level_enum.trace ∧
    (RCUTILS_LOG_SEVERITY_DEBUG < s → s < RCUTILS_LOG_SEVERITY_INFO →
      map_external_log_level_to_library_level s = level_enum.info) ∧
    (RCUTILS_LOG_SEVERITY_INFO < s → s < RCUTILS_LOG_SEVERITY_WARN →
      map_external_log_level_to_library_level s = level_enum.warn) ∧
    (RCUTILS_LOG_SEVERITY_WARN < s → s < RCUTILS_LOG_SEVERITY_ERROR →
      map_external_log_level_to_library_level s = level_enum.err) ∧
    (RCUTILS_LOG_SEVERITY_ERROR < s → s < RCUTILS_LOG_SEVERITY_FATAL →
      map_external_log_level_to_library_level s = level_enum.critical) := by
  have hle : ∀ a b : level_enum, a ≤ b ↔ a.rank ≤ b.rank := fun _ _ => Iff.rfl
  unfold RCUTILS_LOG_SEVERITY_FATAL at h
  rcases map_cases s with ⟨h0, h1⟩ | ⟨h0, h0', h1⟩ | ⟨h0, h0', h1⟩ | ⟨h0, h0', h1⟩ |
    ⟨h0, h0', h1⟩ | ⟨h0, h1⟩
  all_goals
    first
    | (exfalso; omega)
    | (simp only [record_levels, threshold, RCUTILS_LOG_SEVERITY_DEBUG,
        RCUTILS_LOG_SEVERITY_INFO, RCUTILS_LOG_SEVERITY_WARN, RCUTILS_LOG_SEVERITY_ERROR,
        RCUTILS_LOG_SEVERITY_FATAL, h1, List.mem_cons, List.mem_singleton, hle]
       refine ⟨by simp, ⟨_, rfl, by omega⟩, ?_, ?_, by simp, ?_, ?_, ?_, ?_⟩
       · intro l hl t ht hst
         rcases hl with rfl | rfl | rfl | rfl | rfl | hl
         all_goals first
           | exact absurd hl (List.not_mem_nil _)
           | (simp only [level_enum.rank, Option.some.injEq] at ht ⊢; omega)
       all_goals first
         | (intro _; trivial)
         | (intro _ _; trivial)
         | (intro _; exfalso; omega)
         | (intro _ _; exfalso; omega))

/-- Witness of `map_round_up` at severity 0: it maps to debug. -/
theorem map_round_up_witness :
    ((0 : Int) ≤ RCUTILS_LOG_SEVERITY_FATAL) ∧
    map_external_log_level_to_library_level 0 = level_enum.debug :=
  ⟨by decide, (map_round_up 0 (by decide)).2.2.2.1 (by decide)⟩

/-! ## Sink factory -/

/-- Value of `create_sinks`: the two sinks when the log file can be opened, the
exception of the file sink otherwise. -/
theorem create_sinks_eq (w : World) (logfileName : String)
    (fileLevel consoleLevel : Option level_enum) (s : State) :
    (create_sinks w logfileName fileLevel consoleLevel s).1 =
      if w.file_opens (logFile_path w logfileName s) then
        Outcome.returned
          [{ kind := SinkKind.basic_file_sink (logFile_path w logfileName s) true,
             pattern := "%v", level := fileLevel.getD level_enum.trace },
           { kind := SinkKind.syslog_sink logfileName LOG_PID LOG_USER false,
             pattern := "%+", level := consoleLevel.getD level_enum.trace }]
      else
        Outcome.threw
          ("Failed opening file " ++ logFile_path w logfileName s ++ " for writing") := by
  unfold create_sinks logFile_path
  simp only [Sink.fresh]
  split_ifs <;> rfl

/-- Claim C9: whenever `create_sinks` returns, it returns exactly two sinks, the
file sink first and the syslog sink second; the minimum level of the file sink is
`fileLevel` and that of the syslog sink is `consoleLevel`, each whatever the
other is; with both level arguments omitted both minimum levels are `trace` and
both sinks accept the level the mapper gives to any severity. It does return
whenever the log file can be opened. -/
theorem create_sinks_two_sinks (w : World) (logfileName : String)
    (fileLevel consoleLevel : level_enum) (s : State) :
    (w.file_opens (logFile_path w logfileName s) = true →
      (create_sinks w logfileName (some fileLevel) (some consoleLevel) s).1 =
        Outcome.returned
          [{ kind := SinkKind.basic_file_sink (logFile_path w logfileName s) true,
             pattern := "%v", level := fileLevel },
           { kind := SinkKind.syslog_sink logfileName LOG_PID LOG_USER false,
             pattern := "%+", level := consoleLevel }]) ∧
    (∀ sinks, (create_sinks w logfileName (some fileLevel) (some consoleLevel) s).1 =
        Outcome.returned sinks →
      sinks = [{ kind := SinkKind.basic_file_sink (logFile_path w logfileName s) true,
                 pattern := "%v", level := fileLevel },
               { kind := SinkKind.syslog_sink logfileName LOG_PID LOG_USER false,
                 pattern := "%+", level := consoleLevel }]) ∧
    (w.file_opens (logFile_path w logfileName s) = true →
      ∃ sinks, (create_sinks w logfileName none none s).1 = Outcome.returned sinks) ∧
    (∀ sinks, (create_sinks w logfileName none none s).1 = Outcome.returned sinks →
      sinks.length = 2 ∧
      sinks.map Sink.level = [level_enum.trace, level_enum.trace] ∧
      ∀ severity : Int, ∀ sink ∈ sinks,
        sink.should_log (map_external_log_level_to_library_level severity) = true) := by
  refine ⟨?_, ?_, ?_, ?_⟩
  · intro h
    rw [create_sinks_eq, if_pos h]
    rfl
  · intro sinks h
    rw [create_sinks_eq] at h
    split_ifs at h
    injection h with h
    exact h.symm
  · intro h
    rw [create_sinks_eq, if_pos h]
    exact ⟨_, rfl⟩
  · intro sinks h
    rw [create_sinks_eq] at h
    split_ifs at h
    injection h with h
    subst h
    refine ⟨rfl, rfl, ?_⟩
    intro severity sink hs
    have hlevel : sink.level = level_enum.trace := by
      rcases List.mem_cons.1 hs with rfl | hs
      · rfl
      · rcases List.mem_cons.1 hs with rfl | hs
        · rfl
        · exact absurd hs (List.not_mem_nil _)
    simp only [Sink.should_log, hlevel, decide_eq_true_eq]
    exact Nat.zero_le _

/-- Witness of `create_sinks_two_sinks` in `World.fine` with levels warn and
error: the call returns the two sinks. -/
theorem create_sinks_two_sinks_witness :
    World.fine.file_opens (logFile_path World.fine "talker" State.init) = true ∧
    (create_sinks World.fine "talker" (some level_enum.warn) (some level_enum.err)
        State.init).1 =
      Outcome.returned
        [{ kind := SinkKind.basic_file_sink (logFile_path World.fine "talker" State.init) true,
           pattern := "%v", level := level_enum.warn },
         { kind := SinkKind.syslog_sink "talker" LOG_PID LOG_USER false,
           pattern := "%+", level := level_enum.err }] :=
  ⟨rfl, (create_sinks_two_sinks World.fine "talker" level_enum.warn level_enum.err
    State.init).1 rfl⟩

/-! ## Lifecycle -/

/-- Claim C1: when the root logger reference is non-null, initialize returns
success whatever the configuration file and the allocator are, and the state is
left as it was: same root logger, same registry, no logger or sink constructed,
no log file opened. -/
theorem initialize_active_noop (w : World) (config_file : Option String)
    (allocator : rcutils_allocator_t) (s : State) (h : s.g_root_logger ≠ none) :
    ( rcl_logging_external_initialize w config_file allocator s).outcome =
      Outcome.returned rcl_logging_ret_t.RCL_LOGGING_RET_OK ∧
    ( rcl_logging_external_initialize w config_file allocator s).state = s := by
  unfold rcl_logging_external_initialize
  rw [if_pos h]
  exact ⟨rfl, rfl⟩

/-- Witness of `initialize_active_noop` at the state reached by a first
successful call, with a configuration file given in the second call. -/
theorem initialize_active_noop_witness :
    State.active0.g_root_logger ≠ none ∧
    ( rcl_logging_external_initialize World.read_only (some "logging.conf") allocator0
        State.active0).outcome = Outcome.returned rcl_logging_ret_t.RCL_LOGGING_RET_OK ∧
    ( rcl_logging_external_initialize World.read_only (some "logging.conf") allocator0
        State.active0).state = State.active0 :=
  ⟨by decide,
   initialize_active_noop World.read_only (some "logging.conf") allocator0 State.active0
     (by decide)⟩

/-- Claim C2, as stated, fails: in the Active state a call of initialize with the
non-empty configuration file `logging.conf` returns success, not the error. -/
theorem initialize_config_file_active_ok :
    "logging.conf" ≠ "" ∧
    State.active0.active = true ∧
    ( rcl_logging_external_initialize World.fine (some "logging.conf") allocator0
        State.active0).outcome = Outcome.returned rcl_logging_ret_t.RCL_LOGGING_RET_OK ∧
    ( rcl_logging_external_initialize World.fine (some "logging.conf") allocator0
        State.active0).outcome ≠ Outcome.returned rcl_logging_ret_t.RCL_LOGGING_RET_ERROR := by
  refine ⟨by decide, by decide, by decide, by decide⟩

/-- Claim C2, amended: a call of initialize with a non-empty configuration file,
made while the root logger reference is null, returns the error for every world
and allocator, sets the unsupported-configuration message and changes nothing
else; made while a root logger is active it returns success. -/
theorem initialize_config_file_rejected (w : World) (config_file : String)
    (allocator : rcutils_allocator_t) (s : State) (h : config_file ≠ "") :
    (s.g_root_logger = none →
      ( rcl_logging_external_initialize w (some config_file) allocator s).outcome =
        Outcome.returned rcl_logging_ret_t.RCL_LOGGING_RET_ERROR ∧
      ( rcl_logging_external_initialize w (some config_file) allocator s).state =
        { s with error_msg := some unsupported_configuration_msg }) ∧
    (s.g_root_logger ≠ none →
      ( rcl_logging_external_initialize w (some config_file) allocator s).outcome =
        Outcome.returned rcl_logging_ret_t.RCL_LOGGING_RET_OK) := by
  constructor
  · intro hs
    unfold rcl_logging_external_initialize
    simp [hs, h]
  · intro hs
    unfold rcl_logging_external_initialize
    rw [if_pos hs]

/-- Witness of `initialize_config_file_rejected` in the initial state. -/
theorem initialize_config_file_rejected_witness :
    "logging.conf" ≠ "" ∧ State.init.g_root_logger = none ∧
    ( rcl_logging_external_initialize World.fine (some "logging.conf") allocator0
        State.init).outcome = Outcome.returned rcl_logging_ret_t.RCL_LOGGING_RET_ERROR :=
  ⟨by decide, rfl,
   ((initialize_config_file_rejected World.fine "logging.conf" allocator0 State.init
     (by decide)).1 rfl).1⟩

/-- Claim C5: shutdown returns success in every state and leaves the root logger
reference null; when the reference is already null the state is left as it was;
a second shutdown returns success and leaves the state of the first. -/
theorem shutdown_ok_idempotent (s : State) :
    (rcl_logging_external_shutdown s).outcome =
      Outcome.returned rcl_logging_ret_t.RCL_LOGGING_RET_OK ∧
    (rcl_logging_external_shutdown s).state.g_root_logger = none ∧
    (s.g_root_logger = none → (rcl_logging_external_shutdown s).state = s) ∧
    (rcl_logging_external_shutdown (rcl_logging_external_shutdown s).state).outcome =
      Outcome.returned rcl_logging_ret_t.RCL_LOGGING_RET_OK ∧
    rcl_logging_external_shutdown (rcl_logging_external_shutdown s).state =
      rcl_logging_external_shutdown s := by
  refine ⟨rfl, rfl, ?_, rfl, rfl⟩
  intro h
  cases s
  simp only [rcl_logging_external_shutdown] at h ⊢
  subst h
  rfl

/-- Witness of `shutdown_ok_idempotent` in the initial state, where the reference
is null. -/
theorem shutdown_ok_idempotent_witness :
    State.init.g_root_logger = none ∧
    (rcl_logging_external_shutdown State.init).state = State.init :=
  ⟨rfl, (shutdown_ok_idempotent State.init).2.2.1 rfl⟩

/-- The sink factory touches neither the loggers, nor the root logger reference,
nor the registry. -/
theorem create_sinks_state (w : World) (logfileName : String)
    (fileLevel consoleLevel : Option level_enum) (s : State) :
    (create_sinks w logfileName fileLevel consoleLevel s).2.g_root_logger = s.g_root_logger ∧
    (create_sinks w logfileName fileLevel consoleLevel s).2.loggers = s.loggers ∧
    (create_sinks w logfileName fileLevel consoleLevel s).2.registry = s.registry := by
  unfold create_sinks getLogDirectory
  cases w.LOG_DIR <;> simp only <;> split_ifs <;> exact ⟨rfl, rfl, rfl⟩

/-- Registering the logger just constructed under the name `root`: the library
throws when that name is taken and stores the logger otherwise. -/
theorem register_new_root (s : State) (sinks : List Sink) :
    register_logger s.loggers.length
      (State.update_logger
        { s with loggers := s.loggers ++ [{ name := "root", sinks := sinks,
                                            level := level_enum.info,
                                            overflow_policy := async_overflow_policy.block }],
                 g_root_logger := some s.loggers.length }
        s.loggers.length (fun l => l.set_pattern "%v")) =
      if s.root_registered then
        (Outcome.threw "logger with name root already exists",
          State.update_logger
            { s with loggers := s.loggers ++ [{ name := "root", sinks := sinks,
                                                level := level_enum.info,
                                                overflow_policy := async_overflow_policy.block }],
                     g_root_logger := some s.loggers.length }
            s.loggers.length (fun l => l.set_pattern "%v"))
      else
        (Outcome.returned (),
          { State.update_logger
              { s with loggers := s.loggers ++ [{ name := "root", sinks := sinks,
                                                  level := level_enum.info,
                                                  overflow_policy := async_overflow_policy.block }],
                       g_root_logger := some s.loggers.length }
              s.loggers.length (fun l => l.set_pattern "%v") with
            registry := s.registry ++ [("root", s.loggers.length)] }) := by
  simp only [State.update_logger, register_logger, State.root_registered,
    List.getElem?_concat_length, List.set_append_right, List.length_append, List.length_singleton,
    Nat.sub_self, List.set_cons_zero, Logger.set_pattern, Nat.le_refl]
  split_ifs <;> rfl

/-- A call of initialize made with a null root logger reference and no
configuration file, in which the executable name is resolved and formatted and
the sink factory returns: the reference is set, and the call succeeds exactly when
the registry does not hold the name `root` yet. -/
theorem initialize_no_config_eq (w : World) (config_file : Option String)
    (allocator : rcutils_allocator_t) (s : State) (h : s.g_root_logger = none)
    (hc : config_file = none ∨ config_file = some "") (basec : String)
    (hn : w.rcutils_get_executable_name allocator = some basec)
    (hp : 0 ≤ w.rcutils_snprintf 4096 basec) (sinks : List Sink) (s2 : State)
    (hs : create_sinks w ⟨basec.data.take 4095⟩ none none
      (if s.thread_pool = none then init_thread_pool 8192 1 s else s) =
        (Outcome.returned sinks, s2)) :
    ( rcl_logging_external_initialize w config_file allocator s).state.g_root_logger =
        some s2.loggers.length ∧
    ( rcl_logging_external_initialize w config_file allocator s).outcome =
      (if s.root_registered then Outcome.threw "logger with name root already exists"
       else Outcome.returned rcl_logging_ret_t.RCL_LOGGING_RET_OK) ∧
    ( rcl_logging_external_initialize w config_file allocator s).events = events_with_write ∧
    ( rcl_logging_external_initialize w config_file allocator s).state.registry =
      (if s.root_registered then s.registry
       else s.registry ++ [("root", s2.loggers.length)]) := by
  have h2 : s2.registry = s.registry := by
    have := (create_sinks_state w ⟨basec.data.take 4095⟩ none none
      (if s.thread_pool = none then init_thread_pool 8192 1 s else s)).2.2
    rw [hs] at this
    rw [show s2.registry = _ from this]
    split_ifs <;> rfl
  have hreg : s2.root_registered = s.root_registered := by
    simp only [State.root_registered, h2]
  unfold rcl_logging_external_initialize
  rcases hc with rfl | rfl
  all_goals
    simp only [h, hn, not_lt.2 hp, hs, register_new_root, hreg]
    by_cases hr : s.root_registered = true <;> simp [hr, State.update_logger, h2]

/-- The ways a call of initialize can end when the root logger reference is null:
an error return, an exception of the sink factory, an exception of the registry
(only when the name `root` is taken), or success (only when it is free). -/
theorem initialize_uninit_cases (w : World) (config_file : Option String)
    (allocator : rcutils_allocator_t) (s : State) (h : s.g_root_logger = none) :
    (( rcl_logging_external_initialize w config_file allocator s).outcome =
        Outcome.returned rcl_logging_ret_t.RCL_LOGGING_RET_ERROR ∧
      ( rcl_logging_external_initialize w config_file allocator s).events =
        events_without_write ∧
      ( rcl_logging_external_initialize w config_file allocator s).state.g_root_logger = none ∧
      ( rcl_logging_external_initialize w config_file allocator s).state.registry =
        s.registry) ∨
    ((∃ what, ( rcl_logging_external_initialize w config_file allocator s).outcome =
        Outcome.threw what) ∧
      ( rcl_logging_external_initialize w config_file allocator s).events =
        events_without_write ∧
      ( rcl_logging_external_initialize w config_file allocator s).state.g_root_logger = none ∧
      ( rcl_logging_external_initialize w config_file allocator s).state.registry =
        s.registry) ∨
    ((∃ what, ( rcl_logging_external_initialize w config_file allocator s).outcome =
        Outcome.threw what) ∧
      ( rcl_logging_external_initialize w config_file allocator s).events =
        events_with_write ∧
      s.root_registered = true ∧
      ( rcl_logging_external_initialize w config_file allocator s).state.g_root_logger ≠ none ∧
      ( rcl_logging_external_initialize w config_file allocator s).state.registry =
        s.registry) ∨
    (( rcl_logging_external_initialize w config_file allocator s).outcome =
        Outcome.returned rcl_logging_ret_t.RCL_LOGGING_RET_OK ∧
      ( rcl_logging_external_initialize w config_file allocator s).events =
        events_with_write ∧
      s.root_registered = false ∧
      ( rcl_logging_external_initialize w config_file allocator s).state.g_root_logger ≠ none ∧
      ( rcl_logging_external_initialize w config_file allocator s).state.root_registered =
        true) := by
  by_cases hc : config_file = none ∨ config_file = some ""
  · cases hn : w.rcutils_get_executable_name allocator with
    | none =>
      left
      unfold rcl_logging_external_initialize
      rcases hc with rfl | rfl <;> simp [h, hn]
    | some basec =>
      by_cases hp : 0 ≤ w.rcutils_snprintf 4096 basec
      · cases hs : create_sinks w ⟨basec.data.take 4095⟩ none none
          (if s.thread_pool = none then init_thread_pool 8192 1 s else s) with
        | mk o s2 =>
          have hreg : s2.registry = s.registry := by
            have := (create_sinks_state w ⟨basec.data.take 4095⟩ none none
              (if s.thread_pool = none then init_thread_pool 8192 1 s else s)).2.2
            rw [hs] at this
            rw [show s2.registry = _ from this]
            split_ifs <;> rfl
          have hroot : s2.g_root_logger = none := by
            have := (create_sinks_state w ⟨basec.data.take 4095⟩ none none
              (if s.thread_pool = none then init_thread_pool 8192 1 s else s)).1
            rw [hs] at this
            rw [show s2.g_root_logger = _ from this]
            split_ifs <;> simp [init_thread_pool, h]
          cases o with
          | threw what =>
            right; left
            unfold rcl_logging_external_initialize
            rcases hc with rfl | rfl <;>
              simp [h, hn, not_lt.2 hp, hs, hreg, hroot]
          | returned sinks =>
            have key := initialize_no_config_eq w config_file allocator s h hc basec hn hp
              sinks s2 hs
            obtain ⟨k1, k2, k3, k4⟩ := key
            by_cases hr : s.root_registered = true
            · right; right; left
              rw [if_pos hr] at k2 k4
              exact ⟨⟨_, k2⟩, k3, hr, by rw [k1]; simp, k4⟩
            · right; right; right
              rw [if_neg hr] at k2 k4
              refine ⟨k2, k3, by simpa using hr, by rw [k1]; simp, ?_⟩
              simp [State.root_registered, k4, List.lookup_append]
      · left
        unfold rcl_logging_external_initialize
        rcases hc with rfl | rfl <;> simp [h, hn, not_le.1 hp]
  · left
    cases config_file with
    | none => simp at hc
    | some c =>
      have hne : c ≠ "" := fun hcc => hc (Or.inr (by rw [hcc]))
      unfold rcl_logging_external_initialize
      simp [h, hne]

/-- While the registry does not hold the name `root`, a call of initialize that
starts with a null root logger reference and does not succeed leaves the
reference null. -/
theorem initialize_failure_atomic_root_free (w : World) (config_file : Option String)
    (allocator : rcutils_allocator_t) (s : State) (h : s.g_root_logger = none)
    (hfree : s.root_registered = false)
    (hfail : ( rcl_logging_external_initialize w config_file allocator s).outcome ≠
      Outcome.returned rcl_logging_ret_t.RCL_LOGGING_RET_OK) :
    ( rcl_logging_external_initialize w config_file allocator s).state.g_root_logger = none := by
  rcases initialize_uninit_cases w config_file allocator s h with
    ⟨_, _, h2, _⟩ | ⟨_, _, h2, _⟩ | ⟨_, _, h2, _⟩ | ⟨h2, _⟩
  · exact h2
  · exact h2
  · rw [hfree] at h2
    exact absurd h2 (by decide)
  · exact absurd h2 hfail

/-- Once the registry holds the name `root`, no call of initialize that starts
with a null root logger reference succeeds, whatever its arguments and the world. -/
theorem initialize_root_taken_not_ok (w : World) (config_file : Option String)
    (allocator : rcutils_allocator_t) (s : State) (h : s.g_root_logger = none)
    (htaken : s.root_registered = true) :
    ( rcl_logging_external_initialize w config_file allocator s).outcome ≠
      Outcome.returned rcl_logging_ret_t.RCL_LOGGING_RET_OK := by
  rcases initialize_uninit_cases w config_file allocator s h with
    ⟨h2, _⟩ | ⟨⟨_, h2⟩, _⟩ | ⟨⟨_, h2⟩, _⟩ | ⟨_, _, h2, _⟩
  · rw [h2]; simp
  · rw [h2]; simp
  · rw [h2]; simp
  · rw [htaken] at h2
    exact absurd h2 (by decide)

/-- After a successful initialize from a null reference followed by shutdown, the
registry still holds the name `root`, the reference is null, and no further call
of initialize succeeds. -/
theorem initialize_shutdown_then_initialize_not_ok (w1 w2 : World)
    (config_file1 config_file2 : Option String) (allocator1 allocator2 : rcutils_allocator_t)
    (s : State) (h : s.g_root_logger = none)
    (hok : ( rcl_logging_external_initialize w1 config_file1 allocator1 s).outcome =
      Outcome.returned rcl_logging_ret_t.RCL_LOGGING_RET_OK) :
    (rcl_logging_external_shutdown
      ( rcl_logging_external_initialize w1 config_file1 allocator1 s).state).state.root_registered
        = true ∧
    ( rcl_logging_external_initialize w2 config_file2 allocator2
      (rcl_logging_external_shutdown
        ( rcl_logging_external_initialize w1 config_file1 allocator1 s).state).state).outcome ≠
      Outcome.returned rcl_logging_ret_t.RCL_LOGGING_RET_OK := by
  have hreg : (rcl_logging_external_shutdown
      ( rcl_logging_external_initialize w1 config_file1 allocator1 s).state).state.root_registered
        = true := by
    rcases initialize_uninit_cases w1 config_file1 allocator1 s h with
      ⟨h2, _⟩ | ⟨⟨_, h2⟩, _⟩ | ⟨⟨_, h2⟩, _⟩ | ⟨_, _, _, _, h2⟩
    · rw [h2] at hok; simp at hok
    · rw [h2] at hok; simp at hok
    · rw [h2] at hok; simp at hok
    · exact h2
  exact ⟨hreg, initialize_root_taken_not_ok w2 config_file2 allocator2 _ rfl hreg⟩

/-- Claim C3 fails on the code. The state `State.after_shutdown0` is
Uninitialized (null root logger reference). The call of initialize made there
with no configuration file does not succeed, because the registry refuses the
name `root`, and it leaves the reference set: the state is Active, not
Uninitialized. -/
theorem initialize_register_failure_leaves_root_set :
    State.after_shutdown0.g_root_logger = none ∧
    State.after_shutdown0.active = false ∧
    ( rcl_logging_external_initialize World.fine none allocator0
        State.after_shutdown0).outcome =
      Outcome.threw "logger with name root already exists" ∧
    ( rcl_logging_external_initialize World.fine none allocator0
        State.after_shutdown0).state.g_root_logger = some 1 ∧
    ( rcl_logging_external_initialize World.fine none allocator0
        State.after_shutdown0).state.active = true := by
  refine ⟨by decide, by decide, by decide, by decide, by decide⟩

/-- Claim C4 fails on the code. From the initial state initialize with no
configuration file succeeds and shutdown succeeds; afterwards the logger is still
registered under the name `root`, and a following call of initialize in the same
world, where name resolution and sink creation succeed, does not return success:
the registry throws. -/
theorem shutdown_keeps_root_registered :
    ( rcl_logging_external_initialize World.fine none allocator0 State.init).outcome =
      Outcome.returned rcl_logging_ret_t.RCL_LOGGING_RET_OK ∧
    (rcl_logging_external_shutdown State.active0).outcome =
      Outcome.returned rcl_logging_ret_t.RCL_LOGGING_RET_OK ∧
    State.after_shutdown0.registry = [("root", 0)] ∧
    State.after_shutdown0.root_registered = true ∧
    ( rcl_logging_external_initialize World.fine none allocator0
        State.after_shutdown0).outcome ≠
      Outcome.returned rcl_logging_ret_t.RCL_LOGGING_RET_OK ∧
    ( rcl_logging_external_initialize World.fine none allocator0
        State.after_shutdown0).outcome ≠
      ( rcl_logging_external_initialize World.fine none allocator0 State.init).outcome := by
  refine ⟨by decide, by decide, by decide, by decide, by decide, by decide⟩

/-- The accesses made by a call of initialize are one of the two sequences. -/
theorem initialize_events (w : World) (config_file : Option String)
    (allocator : rcutils_allocator_t) (s : State) :
    ( rcl_logging_external_initialize w config_file allocator s).events = events_without_write ∨
    ( rcl_logging_external_initialize w config_file allocator s).events = events_with_write := by
  by_cases h : s.g_root_logger = none
  · rcases initialize_uninit_cases w config_file allocator s h with
      ⟨_, h2, _⟩ | ⟨_, h2, _⟩ | ⟨_, h2, _⟩ | ⟨_, h2, _⟩
    · exact Or.inl h2
    · exact Or.inl h2
    · exact Or.inr h2
    · exact Or.inr h2
  · left
    unfold rcl_logging_external_initialize
    rw [if_pos h]

/-- Claim C10 fails on the code. Every call of initialize writes the root logger
reference only while it holds `g_logger_mutex`; every call of shutdown writes the
reference without having taken the lock. -/
theorem shutdown_writes_root_unlocked (w : World) (config_file : Option String)
    (allocator : rcutils_allocator_t) (s : State) :
    writes_locked false ( rcl_logging_external_initialize w config_file allocator s).events
      = true ∧
    (rcl_logging_external_shutdown s).events = [Event.write_root] ∧
    writes_locked false (rcl_logging_external_shutdown s).events = false := by
  refine ⟨?_, rfl, rfl⟩
  rcases initialize_events w config_file allocator s with h | h <;> rw [h] <;> rfl

end RclLoggingSpdlog
